import Mathlib

/-!
Verification of the payment-confirmation and order-materialization pipeline of
the duks-backend repository.

The JavaScript sources are shallowly embedded: JS numbers are modelled as
rationals, JS strings as `String`, absent or non-numeric fields as `Option`,
and the Mongo store as an explicit record threaded through each handler.
Each webhook revision present in the repository gets its own embedding:

* `webhookPC2`     : src/unnamed/part_012 paymentController revision (webhook
  at line 1616): signature check, `normalizeItems`, amount-mismatch alert,
  atomic `findOneAndUpdate` upsert keyed by the payment reference.
* `pc1Webhook`     : src/unnamed/part_012 revision at line 868 (heuristic
  kobo/cedi total, find-then-create).
* `ocWebhook`      : src/src/controllers/orderController.js `webhookPayment`
  (find-then-create, cart cleared outside the creation branch).
* `pmWebhook`      : src/src/controllers/paymentController.js `webhookPayment`
  (no signature verification; the sends go through src/src/utils/Email.js,
  whose `sendEmail` catches every transport error itself).
* `resolveItemP10` : src/unnamed/part_010 webhook item price resolution.
* `trySendMail`    : src/unnamed/part_004 retry / fallback mail delivery.

Email sends are modelled as effects: each attempted message is recorded
together with a success flag driven by an `efail` parameter (the environment
decides which sends throw).  Cart deletions are recorded in `cartOps`.
The HMAC of the node crypto library is an external primitive and is passed to
the signature verifier as a function parameter.
-/

namespace Duks

/-- JS truthiness of an optional string: `undefined`, `null` and `""` are falsy. -/
def truthyS : Option String → Bool
  | none => false
  | some s => s ≠ ""

/-- JS `a || d` for an optional string `a` and a default `d`. -/
def orElseS (a : Option String) (d : String) : String :=
  match a with
  | none => d
  | some s => if s = "" then d else s

/-- JS `a || d` for an optional number `a` (`0` is falsy). -/
def orElseQ (a : Option ℚ) (d : ℚ) : ℚ :=
  match a with
  | none => d
  | some x => if x = 0 then d else x

/-- JS `a || null` for an optional string: keeps `a` only when truthy. -/
def keepTruthy (a : Option String) : Option String :=
  if truthyS a then a else none

/-- First truthy value of a JS `a || b || ... || null` chain of strings. -/
def firstTruthyS : List (Option String) → Option String
  | [] => none
  | a :: rest => if truthyS a then a else firstTruthyS rest

/-- JS `String(x)` on an optional string (`String(undefined) = "undefined"`). -/
def jsStringS (a : Option String) : String :=
  match a with
  | none => "undefined"
  | some s => s

/-- JS `Math.abs`. -/
def jsAbs (x : ℚ) : ℚ := if x < 0 then -x else x

/-- JS `Math.round` (round half toward positive infinity): the floor of
`x + 0.5`. -/
def jsRound (x : ℚ) : ℤ := Int.floor (x + 0.5)

/-- An inbound metadata item, as the webhook handlers see it: every field may
be missing, and `price` / `quantity` may be non-numeric (modelled as `none`).
The `drinkId` envelope unwrap of part_012 line 933 collapses here because ids
are modelled as plain strings. -/
structure RawItem where
  drinkId : Option String := none
  name : Option String := none
  productName : Option String := none
  pack : Option String := none
  packSize : Option String := none
  price : Option ℚ := none
  quantity : Option ℚ := none
  qty : Option ℚ := none
  image : Option String := none
  imageUrl : Option String := none
deriving DecidableEq, Repr

/-- A customer object as it appears in gateway metadata (all fields optional). -/
structure Cust where
  fullName : Option String := none
  email : Option String := none
  phone : Option String := none
  address : Option String := none
  city : Option String := none
  country : Option String := none
deriving DecidableEq, Repr

/-- Nested `metadata.delivery` object used by the part_012 line-868 revision. -/
structure Delivery where
  date : Option String := none
  time : Option String := none
deriving DecidableEq, Repr

/-- Gateway metadata: the union of the fields the various revisions read.
`userNested` stands for `metadata.user._id`. -/
structure Metadata where
  userId : Option String := none
  userNested : Option String := none
  userIdString : Option String := none
  customer : Option Cust := none
  items : Option (List RawItem) := none
  cart : Option (List RawItem) := none
  fullName : Option String := none
  email : Option String := none
  phone : Option String := none
  address : Option String := none
  city : Option String := none
  country : Option String := none
  deliveryDate : Option String := none
  deliveryTime : Option String := none
  deliveryNested : Option Delivery := none
  vendor : Option String := none
  provider : Option String := none
  calculatedTotal : Option ℚ := none
deriving DecidableEq, Repr

/-- The `data` object of a charge event.  `amount` is `none` when absent or
non-numeric. -/
structure ChargeData where
  reference : String
  metadata : Option Metadata := none
  amount : Option ℚ := none
deriving DecidableEq, Repr

/-- A parsed webhook body. -/
structure WebhookBody where
  event : String
  data : Option ChargeData := none
deriving DecidableEq, Repr

/-- A webhook HTTP request: the raw received bytes, the signature header, and
the JSON-parsed body (the parse of the raw bytes, collapsed in the model). -/
structure RawReq where
  raw : List ℕ
  sigHeader : String
  body : WebhookBody
deriving DecidableEq, Repr

/-- Process environment: the Paystack shared secret and the admin address. -/
structure Env where
  paystackSecret : String := ""
  adminEmail : Option String := none
deriving DecidableEq, Repr

/-- An attempted outgoing email, identified by recipient and kind. -/
structure EmailMsg where
  addr : String
  kind : String
deriving DecidableEq, Repr

/-- Result of one handler invocation: HTTP status and body message, the store
after the call, the attempted emails (with success flag), and the issued cart
deletions (each recorded with its `userId` key). -/
structure HResult (σ : Type) where
  status : ℕ
  message : String
  store : σ
  emails : List (EmailMsg × Bool)
  cartOps : List (Option String)
deriving DecidableEq

/-- part_012 lines 1244-1250 (`verifyPaystackSignature`): HMAC-SHA512 of the
raw body under the shared secret, compared to the header value.  The HMAC
itself is the node crypto primitive, passed in as `hmac`. -/
def verifyPaystackSignature (hmac : String → List ℕ → String) (secret : String)
    (req : RawReq) : Bool :=
  hmac secret req.raw == req.sigHeader

/-- A persisted item of the part_012 revisions (all fields filled in). -/
structure NItem where
  drinkId : Option String
  name : String
  pack : String
  price : ℚ
  quantity : ℚ
  subtotal : ℚ
  image : String
deriving DecidableEq, Repr

/-- One item of part_012 `normalizeItems` (lines 1276-1293): the price is
`Number(item.price || 0)` from the payload, the quantity is clamped to `≥ 1`. -/
def pc2NormalizeOne (it : RawItem) : NItem :=
  let price := orElseQ it.price 0
  let quantity := max 1 (orElseQ it.quantity 1)
  { drinkId := it.drinkId
    name := orElseS it.name "Item"
    pack := orElseS it.pack ""
    price := price
    quantity := quantity
    subtotal := price * quantity
    image := orElseS it.image "" }

/-- part_012 `normalizeItems` (lines 1270-1296): drops items without a truthy
`drinkId`, maps the rest through `pc2NormalizeOne`, and accumulates the total
amount and total quantity. -/
def normalizeItems : List RawItem → List NItem × ℚ × ℚ
  | [] => ([], 0, 0)
  | it :: rest =>
    let r := normalizeItems rest
    if truthyS it.drinkId then
      let n := pc2NormalizeOne it
      (n :: r.1, n.subtotal + r.2.1, n.quantity + r.2.2)
    else r

/-- A persisted Order of the part_012 revisions. -/
structure Order where
  userId : Option String
  customer : Cust
  items : List NItem
  totalAmount : ℚ
  totalItems : ℚ
  deliveryDate : Option String
  deliveryTime : Option String
  vendor : String
  paystackReference : String
  paymentStatus : String
  orderStatus : String
  createdAt : ℤ
deriving DecidableEq

/-- The Order collection. -/
structure Store where
  orders : List Order
deriving DecidableEq

/-- `Order.findOne({ paystackReference: ref })`. -/
def findOrder (s : Store) (ref : String) : Option Order :=
  s.orders.find? (fun o => o.paystackReference == ref)

/-- Number of persisted orders carrying the given payment reference. -/
def countRef (s : Store) (ref : String) : ℕ :=
  s.orders.countP (fun o => o.paystackReference == ref)

/-- The amount-mismatch test of part_012 lines 1667-1670: difference between
the charged amount and `Math.round(total*100)`, compared against the 100
pesewa (1 GHS) tolerance.  A missing charged amount gives `NaN > 100`, which
is false in JS. -/
def pc2Mismatch (paystackAmount : Option ℚ) (totalAmount : ℚ) : Bool :=
  match paystackAmount with
  | some a => jsAbs (a - ((jsRound (totalAmount * 100) : ℤ) : ℚ)) > 100
  | none => false

/-- A guarded customer-confirmation attempt (`sendCustomerEmail`, part_012
lines 1299-1356: returns early unless `customer?.email` is truthy; a send
failure is caught and only logged). -/
def custAttempt (efail : EmailMsg → Bool) (customer : Cust) : List (EmailMsg × Bool) :=
  if truthyS customer.email then
    let msg : EmailMsg := { addr := orElseS customer.email "", kind := "customer-confirmation" }
    [(msg, !efail msg)]
  else []

/-- A guarded admin-alert attempt (`sendAdminEmail`, part_012 lines 1359-1458:
returns early unless `ADMIN_EMAIL` is set; a send failure is caught and only
logged). -/
def adminAttempt (efail : EmailMsg → Bool) (env : Env) : List (EmailMsg × Bool) :=
  match env.adminEmail with
  | some a =>
    let msg : EmailMsg := { addr := a, kind := "admin-alert" }
    [(msg, !efail msg)]
  | none => []

/-- The mismatch alert block of part_012 lines 1670-1698: when the difference
exceeds the tolerance and `ADMIN_EMAIL` is set, one alert send is attempted
(its failure caught and only logged). -/
def pc2Alert (efail : EmailMsg → Bool) (env : Env) (paystackAmount : Option ℚ)
    (totalAmount : ℚ) : List (EmailMsg × Bool) :=
  if pc2Mismatch paystackAmount totalAmount then
    match env.adminEmail with
    | some a =>
      let msg : EmailMsg := { addr := a, kind := "mismatch-alert" }
      [(msg, !efail msg)]
    | none => []
  else []

/-- The `$setOnInsert` document of the part_012 upsert (lines 1703-1717). -/
def pc2NewOrder (now : ℤ) (reference : String) (m : Metadata) (customer : Cust)
    (normalizedItems : List NItem) (totalAmount totalQty : ℚ) : Order :=
  { userId := keepTruthy m.userId
    customer := customer
    items := normalizedItems
    totalAmount := totalAmount
    totalItems := totalQty
    deliveryDate := keepTruthy m.deliveryDate
    deliveryTime := keepTruthy m.deliveryTime
    vendor := orElseS m.vendor ""
    paystackReference := reference
    paymentStatus := "paid"
    orderStatus := "confirmed"
    createdAt := now }

/-- The atomic `Order.findOneAndUpdate({paystackReference}, {$setOnInsert},
{upsert, new})` of part_012 lines 1701-1724: one store operation that returns
the existing order unchanged, or inserts and returns the new document. -/
def pc2Upsert (now : ℤ) (store : Store) (reference : String) (m : Metadata)
    (customer : Cust) (normalizedItems : List NItem) (totalAmount totalQty : ℚ) :
    Order × Store :=
  match findOrder store reference with
  | some o => (o, store)
  | none =>
    let newOrder : Order :=
      pc2NewOrder now reference m customer normalizedItems totalAmount totalQty
    (newOrder, { orders := store.orders ++ [newOrder] })

/-- part_012 lines 1666-1760: the tail of the webhook after validation —
mismatch alert, atomic upsert keyed by the reference, the 10-second
`isNewOrder` test, notifications and cart clearing. -/
def pc2Materialize (efail : EmailMsg → Bool) (env : Env) (now : ℤ) (store : Store)
    (reference : String) (m : Metadata) (customer : Cust)
    (normalizedItems : List NItem) (totalAmount totalQty : ℚ)
    (paystackAmount : Option ℚ) : HResult Store :=
  let alertAttempts := pc2Alert efail env paystackAmount totalAmount
  let u := pc2Upsert now store reference m customer normalizedItems totalAmount totalQty
  if u.1.createdAt > now - 10000 then
    { status := 200
      message := "Webhook processed successfully"
      store := u.2
      emails := alertAttempts ++ custAttempt efail customer ++ adminAttempt efail env
      cartOps := if truthyS m.userId then [m.userId] else [] }
  else
    { status := 200
      message := "Order already processed"
      store := u.2
      emails := alertAttempts
      cartOps := [] }

/-- part_012 lines 1616-1769: the paymentController webhook revision.
Signature verification over the raw bytes, event filter, payload validation,
then `pc2Materialize`.  An absent `data` object makes the destructuring throw,
caught as a 500. -/
def webhookPC2 (hmac : String → List ℕ → String) (efail : EmailMsg → Bool)
    (env : Env) (now : ℤ) (store : Store) (req : RawReq) : HResult Store :=
  if !verifyPaystackSignature hmac env.paystackSecret req then
    { status := 401, message := "Invalid signature", store := store, emails := [], cartOps := [] }
  else if req.body.event != "charge.success" then
    { status := 200, message := "Event ignored", store := store, emails := [], cartOps := [] }
  else
    match req.body.data with
    | none =>
      { status := 500, message := "Webhook processing failed", store := store, emails := [], cartOps := [] }
    | some data =>
      let m := data.metadata.getD {}
      match m.items with
      | none =>
        { status := 400, message := "Invalid order items", store := store, emails := [], cartOps := [] }
      | some rawItems =>
        if rawItems.isEmpty then
          { status := 400, message := "Invalid order items", store := store, emails := [], cartOps := [] }
        else
          match m.customer with
          | none =>
            { status := 400, message := "Invalid customer data", store := store, emails := [], cartOps := [] }
          | some customer =>
            if !truthyS customer.email then
              { status := 400, message := "Invalid customer data", store := store, emails := [], cartOps := [] }
            else
              let n := normalizeItems rawItems
              if n.1.isEmpty then
                { status := 400, message := "No valid items", store := store, emails := [], cartOps := [] }
              else
                pc2Materialize efail env now store data.reference m customer n.1 n.2.1 n.2.2 data.amount

/-! ## orderController.js webhookPayment (find-then-create revision) -/

/-- A persisted item of the orderController.js webhook (lines 241-248 /
647-654): fields are stored as they arrive, with only image and pack
defaulted. -/
structure OCItem where
  drinkId : Option String
  image : String
  name : Option String
  pack : Option String
  price : Option ℚ
  quantity : Option ℚ
deriving DecidableEq, Repr

/-- orderController.js lines 647-654: the verbatim item mapping. -/
def ocMapItem (it : RawItem) : OCItem :=
  { drinkId := it.drinkId
    image := orElseS it.image (orElseS it.imageUrl "")
    name := it.name
    pack := keepTruthy it.pack
    price := it.price
    quantity := it.quantity }

/-- An Order persisted by the orderController.js webhook. -/
structure OCOrder where
  userId : String
  customer : Cust
  deliveryDate : Option String
  deliveryTime : Option String
  items : List OCItem
  totalAmount : ℚ
  paystackReference : String
  paymentStatus : String
  orderStatus : String
deriving DecidableEq

/-- The Order collection as seen by the orderController.js revision. -/
structure OCStore where
  orders : List OCOrder
deriving DecidableEq

/-- `Order.findOne({ paystackReference: ref })` — the read half of the
check-then-insert pair. -/
def ocFindOne (s : OCStore) (ref : String) : Option OCOrder :=
  s.orders.find? (fun o => o.paystackReference == ref)

/-- `Order.create(...)` under the unique index on `paystackReference`
declared by the order schema (part_004 line 228): inserting a second order
with an existing reference raises a duplicate-key error, modelled as `none`. -/
def ocCreate (s : OCStore) (o : OCOrder) : Option OCStore :=
  if (ocFindOne s o.paystackReference).isSome then none
  else some { orders := s.orders ++ [o] }

/-- The order document built by orderController.js lines 659-669. -/
def ocBuildOrder (reference : String) (m : Metadata) (userId : String)
    (totalAmount : ℚ) : OCOrder :=
  { userId := userId
    customer := m.customer.getD {}
    deliveryDate := keepTruthy m.deliveryDate
    deliveryTime := keepTruthy m.deliveryTime
    items := (m.cart.getD []).map ocMapItem
    totalAmount := totalAmount
    paystackReference := reference
    paymentStatus := "paid"
    orderStatus := "confirmed" }

/-- orderController.js lines 656-700: the continuation of the webhook after
the `findOne` read.  `found` is the value that read returned; under concurrent
deliveries a second invocation may run this continuation with a stale `found`,
which is exactly the unsafe window of a two-call check-then-insert.
On a duplicate, creation and notifications are skipped but the cart deletion
(line 698, outside the creation branch) still runs.  The notification sends
are awaited, but the `sendEmail` this controller imports
(src/src/utils/Email.js lines 13-25) catches every transport error and never
rethrows, so a failed send is only recorded in the attempt flag and cannot
abort the handler. -/
def ocAfterFind (efail : EmailMsg → Bool) (env : Env) (store : OCStore)
    (reference : String) (m : Metadata) (userId : String) (totalAmount : ℚ)
    (found : Option OCOrder) : HResult OCStore :=
  match found with
  | some _ =>
    { status := 200, message := "OK", store := store, emails := [],
      cartOps := [some userId] }
  | none =>
    match ocCreate store (ocBuildOrder reference m userId totalAmount) with
    | none =>
      -- the unique-index duplicate-key error is uncaught inside the handler
      -- body and reaches the catch of line 701: 500, nothing else happens
      { status := 500, message := "Webhook failed", store := store,
        emails := [], cartOps := [] }
    | some store1 =>
      -- `(customer && customer.email) || (metadata && metadata.email) || null`
      let toEmail : Option String :=
        match m.customer with
        | some c => if truthyS c.email then c.email else keepTruthy m.email
        | none => keepTruthy m.email
      let custAttempts : List (EmailMsg × Bool) :=
        match toEmail with
        | some e =>
          let msg : EmailMsg := { addr := e, kind := "customer-confirmation" }
          [(msg, !efail msg)]
        | none => []
      { status := 200, message := "OK", store := store1,
        emails := custAttempts ++ adminAttempt efail env,
        cartOps := [some userId] }

/-- orderController.js lines 630-705 (`webhookPayment`): event filter,
metadata destructuring, `totalAmount = amount / 100`, then find-then-create.
A missing `amount` would be `NaN` in JS; it is modelled as 0 and never used by
the theorems below. -/
def ocWebhook (efail : EmailMsg → Bool) (env : Env) (store : OCStore)
    (body : WebhookBody) : HResult OCStore :=
  if body.event != "charge.success" then
    { status := 200, message := "Ignored", store := store, emails := [], cartOps := [] }
  else
    match body.data with
    | none =>
      { status := 500, message := "Webhook failed", store := store, emails := [], cartOps := [] }
    | some data =>
      match data.metadata with
      | none =>
        -- `const { cart, ... } = metadata` throws on undefined: 500
        { status := 500, message := "Webhook failed", store := store, emails := [], cartOps := [] }
      | some m =>
        if m.cart = none ∨ !truthyS m.userId then
          { status := 400, message := "Missing metadata", store := store, emails := [], cartOps := [] }
        else
          let userId := (m.userId).getD ""
          let totalAmount : ℚ :=
            match data.amount with
            | some a => a / 100
            | none => 0
          ocAfterFind efail env store data.reference m userId totalAmount
            (ocFindOne store data.reference)

/-- Two concurrent deliveries of the same charge payload against the
check-then-insert revision: both `findOne` reads observe the initial store,
then the two continuations commit in turn.  This is an interleaving the
two-call sequence of `ocWebhook` admits, since nothing orders the second
read after the first insert. -/
def ocRace (efail : EmailMsg → Bool) (env : Env) (store : OCStore)
    (reference : String) (m : Metadata) (userId : String) (totalAmount : ℚ) :
    HResult OCStore × HResult OCStore :=
  let f1 := ocFindOne store reference
  let f2 := ocFindOne store reference
  let r1 := ocAfterFind efail env store reference m userId totalAmount f1
  let r2 := ocAfterFind efail env r1.store reference m userId totalAmount f2
  (r1, r2)

/-! ## paymentController.js webhookPayment (src/src, no signature check) -/

/-- An Order persisted by the src/src paymentController webhook: the metadata
items are stored verbatim (line 85). -/
structure PMOrder where
  userId : Option String
  items : List RawItem
  totalAmount : ℚ
  paystackReference : String
  paymentStatus : String
  orderStatus : String
deriving DecidableEq

/-- Order and User collections seen by the src/src paymentController webhook;
`users` maps user ids to email addresses for the `User.findById` fallback. -/
structure PMStore where
  orders : List PMOrder
  users : List (String × String)
deriving DecidableEq

/-- `Order.findOne({ paystackReference: reference })`. -/
def pmFindOne (s : PMStore) (ref : String) : Option PMOrder :=
  s.orders.find? (fun o => o.paystackReference == ref)

/-- The email fallback of paymentController.js lines 72-79: metadata email if
truthy, else the email of the user found by `userId`. -/
def pmEmail (s : PMStore) (m : Metadata) : Option String :=
  if truthyS m.email then m.email
  else
    match m.userId with
    | some u => (s.users.find? (fun p => p.1 == u)).map (fun p => p.2)
    | none => none

/-- The customer-confirmation attempt of paymentController.js lines 94-135:
when the resolved email is truthy one awaited `sendEmail` call is made, but
the imported src/src/utils/Email.js (lines 13-25) catches every transport
error inside `sendEmail` itself and never rethrows, so a failure is only
visible in the attempt flag and cannot abort the handler. -/
def pmCustAttempt (efail : EmailMsg → Bool) (email : Option String) :
    List (EmailMsg × Bool) :=
  if truthyS email then
    let msg : EmailMsg := { addr := email.getD "", kind := "customer-confirmation" }
    [(msg, !efail msg)]
  else []

/-- The order document created by paymentController.js lines 83-90: the
metadata items stored verbatim, the total taken from the charged amount. -/
def pmBuiltOrder (data : ChargeData) (m : Metadata) : PMOrder :=
  { userId := m.userId
    items := m.items.getD []
    totalAmount :=
      match data.amount with
      | some a => a / 100
      | none => 0
    paystackReference := data.reference
    paymentStatus := "paid"
    orderStatus := "confirmed" }

/-- paymentController.js (src/src) lines 64-189 (`webhookPayment`).  There is
no signature verification: the handler starts straight at the event filter.
Both notification sends are awaited, but the imported sendEmail
(src/src/utils/Email.js lines 13-25) swallows every transport error, so a
failed send never reaches the catch: on the creation path both sends are
attempted, the cart is cleared and the handler answers 200 regardless.  On a
duplicate, sends are skipped but the cart is still cleared (line 180 sits
outside the creation branch). -/
def pmWebhook (efail : EmailMsg → Bool) (env : Env) (store : PMStore)
    (body : WebhookBody) : HResult PMStore :=
  if body.event == "charge.success" then
    match body.data with
    | none =>
      { status := 500, message := "Server error", store := store, emails := [], cartOps := [] }
    | some data =>
      match data.metadata with
      | none =>
        -- `const { userId, fullName } = metadata` throws on undefined: 500
        { status := 500, message := "Server error", store := store, emails := [], cartOps := [] }
      | some m =>
        let email := pmEmail store m
        match pmFindOne store data.reference with
        | some _ =>
          { status := 200, message := "OK", store := store, emails := [],
            cartOps := [m.userId] }
        | none =>
          let store1 : PMStore := { store with orders := store.orders ++ [pmBuiltOrder data m] }
          { status := 200, message := "OK", store := store1,
            emails := pmCustAttempt efail email ++ adminAttempt efail env,
            cartOps := [m.userId] }
  else
    { status := 200, message := "OK", store := store, emails := [], cartOps := [] }

/-! ## part_010 webhook item price resolution (catalog fallback) -/

/-- A pack (purchasable variant) of a catalog product. -/
structure Pack where
  pack : String
  price : Option ℚ
deriving DecidableEq, Repr

/-- A catalog product (Drink document). -/
structure Drink where
  id : String
  name : Option String := none
  price : Option ℚ := none
  packs : Option (List Pack) := none
  image : Option String := none
  imageUrl : Option String := none
deriving DecidableEq, Repr

/-- `Drink.findById(item.drinkId)`. -/
def findDrink (catalog : List Drink) (did : Option String) : Option Drink :=
  match did with
  | some d => catalog.find? (fun dr => dr.id == d)
  | none => none

/-- part_010 lines 137-138: `packObj?.price ?? product?.price ?? 0`, where
`packObj = product?.packs?.find(p => String(p.pack) === String(item.pack))`. -/
def p10FallbackPrice (catalog : List Drink) (it : RawItem) : ℚ :=
  let product := findDrink catalog it.drinkId
  let packObj : Option Pack :=
    match product with
    | some pr => (pr.packs.getD []).find? (fun pk => pk.pack == jsStringS it.pack)
    | none => none
  match packObj.bind Pack.price with
  | some p => p
  | none =>
    match product.bind Drink.price with
    | some p => p
    | none => 0

/-- part_010 lines 131-151: the per-item mapping of the webhook.  An item
whose `price` is a truthy number is returned verbatim (the catalog is never
consulted); only a missing/non-numeric price (and the odd `price === 0` case)
enters the lookup branch, which rebuilds the item with catalog fallbacks.
The JS object literal of the lookup branch carries exactly six keys, so the
alternative-key fields are absent (`none`) in its result. -/
def resolveItemP10 (catalog : List Drink) (it : RawItem) : RawItem :=
  if it.price = none ∨ it.price = some 0 then
    let product := findDrink catalog it.drinkId
    let price : ℚ :=
      match it.price with
      | some p => p
      | none => p10FallbackPrice catalog it
    { drinkId := it.drinkId
      name := some (orElseS it.name (orElseS (product.bind Drink.name) "Unknown product"))
      productName := none
      pack := keepTruthy it.pack
      packSize := none
      price := some price
      quantity := some (orElseQ it.quantity 1)
      qty := none
      image := some (orElseS it.image (orElseS (product.bind Drink.image)
        (orElseS (product.bind Drink.imageUrl) "")))
      imageUrl := none }
  else it

/-! ## part_012 line 868 webhook revision (heuristic kobo/cedi total) -/

/-- One item of the line-868 normalization loop (lines 931-948): price from
the payload, quantity from `it.quantity || it.qty || 1` (no clamping), name
and pack with alternative-key fallbacks. -/
def pc1NormalizeOne (it : RawItem) : NItem :=
  let price := orElseQ it.price 0
  let qty := orElseQ it.quantity (orElseQ it.qty 1)
  { drinkId := keepTruthy it.drinkId
    name := orElseS it.name (orElseS it.productName "Item")
    pack := orElseS it.pack (orElseS it.packSize "")
    price := price
    quantity := qty
    subtotal := price * qty
    image := orElseS it.image "" }

/-- The line-868 normalization loop: maps every raw item (no filtering) and
accumulates `computedTotal` and `totalItemsCount`. -/
def pc1Normalize : List RawItem → List NItem × ℚ × ℚ
  | [] => ([], 0, 0)
  | it :: rest =>
    let n := pc1NormalizeOne it
    let r := pc1Normalize rest
    (n :: r.1, n.subtotal + r.2.1, n.quantity + r.2.2)

/-- part_012 lines 951-958: the heuristic total.  A positive numeric gateway
amount above 1000 is taken to be kobo and divided by 100; a positive amount of
at most 1000 is stored unscaled; otherwise the computed item total is used
(`Number(computedTotal || 0)` collapses to `computedTotal`). -/
def pc1TotalAmount (amount : Option ℚ) (computedTotal : ℚ) : ℚ :=
  match amount with
  | some a =>
    if a > 0 then (if a > 1000 then a / 100 else a)
    else computedTotal
  | none => computedTotal

/-- The userId fallback chain of part_012 line 890:
`metadata?.userId || metadata?.user?._id || metadata?.userIdString || null`. -/
def pc1UserId (m : Metadata) : Option String :=
  firstTruthyS [m.userId, m.userNested, m.userIdString]

/-- The item-list selection of part_012 lines 891-895: `metadata.items` if it
is an array, else `metadata.cart`, else the empty list. -/
def pc1ItemsRaw (m : Metadata) : List RawItem :=
  match m.items with
  | some l => l
  | none =>
    match m.cart with
    | some l => l
    | none => []

/-- The customer merge of part_012 lines 908-924: nested customer object
first, then flat top-level keys, then literal placeholders. -/
def pc1Customer (m : Metadata) : Cust :=
  let cfm := m.customer.getD {}
  { fullName := some (orElseS cfm.fullName (orElseS m.fullName "Customer"))
    email := some (orElseS cfm.email (orElseS m.email ""))
    phone := some (orElseS cfm.phone (orElseS m.phone ""))
    address := some (orElseS cfm.address (orElseS m.address "Not provided"))
    city := some (orElseS cfm.city (orElseS m.city ""))
    country := some (orElseS cfm.country (orElseS m.country "Ghana")) }

/-- The order document created by part_012 lines 965-977 (first revision),
expressed from the charge data and metadata. -/
def pc1BuiltOrder (now : ℤ) (data : ChargeData) (m : Metadata) : Order :=
  let n := pc1Normalize (pc1ItemsRaw m)
  { userId := pc1UserId m
    customer := pc1Customer m
    items := n.1
    totalAmount := pc1TotalAmount data.amount n.2.1
    totalItems := n.2.2
    deliveryDate := firstTruthyS [m.deliveryDate, m.deliveryNested.bind Delivery.date]
    deliveryTime := firstTruthyS [m.deliveryTime, m.deliveryNested.bind Delivery.time]
    vendor := orElseS m.vendor (orElseS m.provider "")
    paystackReference := data.reference
    paymentStatus := "paid"
    orderStatus := "confirmed"
    createdAt := now }

/-- part_012 lines 868-1116 (`webhookPayment`, first revision): payload
checks, shape-tolerant extraction, normalization, heuristic total, then
find-then-create.  Notification sends are individually guarded (lines
982-1097), the cart is cleared for both new and duplicate orders (line 1103),
and both paths answer 200. -/
def pc1Webhook (efail : EmailMsg → Bool) (env : Env) (now : ℤ) (store : Store)
    (body : WebhookBody) : HResult Store :=
  match body.data with
  | none =>
    { status := 400, message := "Invalid webhook payload", store := store, emails := [], cartOps := [] }
  | some data =>
    if body.event = "" then
      { status := 400, message := "Invalid webhook payload", store := store, emails := [], cartOps := [] }
    else if body.event != "charge.success" then
      { status := 200, message := "Ignored event", store := store, emails := [], cartOps := [] }
    else
      let m := data.metadata.getD {}
      if (pc1ItemsRaw m).isEmpty then
        { status := 400, message := "Invalid order metadata: items missing", store := store, emails := [], cartOps := [] }
      else
        match findOrder store data.reference with
        | some _ =>
          { status := 200, message := "Webhook received", store := store,
            emails := [], cartOps := [pc1UserId m] }
        | none =>
          let order := pc1BuiltOrder now data m
          { status := 200, message := "Webhook received",
            store := { orders := store.orders ++ [order] },
            emails := custAttempt efail (pc1Customer m) ++ adminAttempt efail env,
            cartOps := [pc1UserId m] }

/-! ## part_004 mail delivery: bounded retry with backoff and fallback -/

/-- Outcome of one SMTP send attempt: a message id, or an error code. -/
inductive SendOutcome where
  | ok (messageId : String)
  | err (code : String)
deriving DecidableEq, Repr

/-- part_004 line 117: the error codes treated as transient. -/
def transientCodes : List String :=
  ["ETIMEDOUT", "ECONNRESET", "EAI_AGAIN", "ENOTFOUND", "ECONNREFUSED"]

/-- What the retry loop of `trySendMail` did: the result (`some id` on
success), how many primary attempts ran, the backoff delays slept between
them (ms), and whether the fallback transport was attempted. -/
structure SendTrace where
  result : Option String
  primaryAttempts : ℕ
  delays : List ℚ
  usedFallback : Bool
deriving DecidableEq, Repr

/-- The `while (attempt <= retries)` loop of part_004 lines 106-127.
`primary k` is the outcome of the k-th primary attempt (1-based); `i` is the
attempt number of the current iteration and `fuel` the remaining loop budget
(`retries + 2 - i`, so the fuel-0 branch is unreachable).  On success the
loop returns; a transient failure backs off `800 * attempt` ms and continues
while `attempt <= retries`; a non-transient failure breaks at once. -/
def primaryGo (primary : ℕ → SendOutcome) (retries : ℕ) :
    ℕ → ℕ → Option String × ℕ × List ℚ
  | i, 0 => (none, i - 1, [])
  | i, fuel + 1 =>
    match primary i with
    | SendOutcome.ok id => (some id, i, [])
    | SendOutcome.err c =>
      if c ∈ transientCodes then
        if i ≤ retries then
          let r := primaryGo primary retries (i + 1) fuel
          (r.1, r.2.1, ((800 : ℚ) * i) :: r.2.2)
        else (none, i, [])
      else (none, i, [])

/-- The primary phase of `trySendMail`: the loop starting at attempt 1. -/
def primaryPhase (primary : ℕ → SendOutcome) (retries : ℕ) :
    Option String × ℕ × List ℚ :=
  primaryGo primary retries 1 (retries + 1)

/-- part_004 lines 102-162 (`trySendMail`): run the primary loop; if it did
not succeed and the `fallback` flag is set and a fallback host is configured
(`fallbackPlan` is `some` with that transport's one-shot outcome), attempt the
fallback exactly once; otherwise (or if the fallback also fails) the last
error is thrown, i.e. `result = none`. -/
def trySendMail (primary : ℕ → SendOutcome) (fallbackPlan : Option SendOutcome)
    (retries : ℕ) (fallback : Bool) : SendTrace :=
  let r := primaryPhase primary retries
  match r.1 with
  | some id =>
    { result := some id, primaryAttempts := r.2.1, delays := r.2.2, usedFallback := false }
  | none =>
    match fallback, fallbackPlan with
    | true, some fb =>
      match fb with
      | SendOutcome.ok id =>
        { result := some id, primaryAttempts := r.2.1, delays := r.2.2, usedFallback := true }
      | SendOutcome.err _ =>
        { result := none, primaryAttempts := r.2.1, delays := r.2.2, usedFallback := true }
    | _, _ =>
      { result := none, primaryAttempts := r.2.1, delays := r.2.2, usedFallback := false }

/-! ## Observables and concrete fixtures -/

/-- A sample metadata item: client-quoted price 10, quantity 1. -/
def fxItem : RawItem :=
  { drinkId := some "d1", name := some "Juice", price := some 10, quantity := some 1 }

/-- A sample customer snapshot. -/
def fxCust : Cust := { fullName := some "A B", email := some "a@b.c" }

/-- Sample metadata carrying the same item under both list keys. -/
def fxMeta : Metadata :=
  { userId := some "u1", cart := some [fxItem], items := some [fxItem], customer := some fxCust }

/-- Sample charge whose amount (5000 pesewas) disagrees with the computed
item total (10 cedis = 1000 pesewas) by more than the 100 pesewa tolerance. -/
def fxData : ChargeData := { reference := "R1", metadata := some fxMeta, amount := some 5000 }

/-- Webhook body for `fxData`. -/
def fxBody : WebhookBody := { event := "charge.success", data := some fxData }

/-- A stand-in HMAC primitive: secret concatenated with the byte count, so a
change to the raw body changes the digest. -/
def fxHmac : String → List ℕ → String := fun secret raw => secret ++ toString raw.length

/-- Sample environment: secret "sec", admin alerts configured. -/
def fxEnv : Env := { paystackSecret := "sec", adminEmail := some "admin@x" }

/-- An email transport on which every send succeeds. -/
def fxNoFail : EmailMsg → Bool := fun _ => false

/-- A correctly signed request for `fxBody` (raw body of 3 bytes, header
`fxHmac "sec" raw = "sec3"`). -/
def fxReq : RawReq := { raw := [1, 2, 3], sigHeader := "sec3", body := fxBody }

/-- The same request with a tampered two-byte body and the original header:
the recomputed digest "sec2" no longer equals the header "sec3". -/
def fxTamperedReq : RawReq := { raw := [9, 9], sigHeader := "sec3", body := fxBody }

/-- Sample charge whose amount (1000 pesewas) matches the computed item total
exactly. -/
def fxDataOk : ChargeData := { reference := "R1", metadata := some fxMeta, amount := some 1000 }

/-- Correctly signed request for `fxDataOk`. -/
def fxReqOk : RawReq :=
  { raw := [1, 2, 3], sigHeader := "sec3",
    body := { event := "charge.success", data := some fxDataOk } }

/-- Sample metadata with no owning-user identifier (guest order). -/
def fxMetaGuest : Metadata :=
  { cart := some [fxItem], items := some [fxItem], customer := some fxCust }

/-- Guest charge data. -/
def fxDataGuest : ChargeData :=
  { reference := "R2", metadata := some fxMetaGuest, amount := some 1000 }

/-- Guest webhook body. -/
def fxBodyGuest : WebhookBody := { event := "charge.success", data := some fxDataGuest }

/-- Correctly signed guest request. -/
def fxReqGuest : RawReq := { raw := [1, 2, 3], sigHeader := "sec3", body := fxBodyGuest }

/-- The order persisted by the orderController.js revision for `fxMeta`
(gateway amount 5000 gives the stored total 50). -/
def fxOCOrder : OCOrder := ocBuildOrder "R1" fxMeta "u1" 50

/-- An orderController.js store already holding the order for reference R1. -/
def fxOCStore : OCStore := { orders := [fxOCOrder] }

/-- Metadata in the shape the src/src paymentController webhook reads
(flat email, items list). -/
def fxMetaPM : Metadata := { userId := some "u1", email := some "a@b.c", items := some [fxItem] }

/-- Charge data for the src/src paymentController webhook. -/
def fxDataPM : ChargeData := { reference := "R3", metadata := some fxMetaPM, amount := some 5000 }

/-- Webhook body for the src/src paymentController webhook. -/
def fxBodyPM : WebhookBody := { event := "charge.success", data := some fxDataPM }

/-- A one-product catalog: product "d1" with a 500ml pack priced 10. -/
def fxCatalog : List Drink :=
  [{ id := "d1", name := some "Juice", packs := some [{ pack := "500ml", price := some 10 }] }]

/-- An item quoting price 999 for the 500ml pack of product "d1", whose
catalog price is 10. -/
def fxQuotedItem : RawItem :=
  { drinkId := some "d1", pack := some "500ml", price := some 999, quantity := some 1 }

/-- A primary transport that fails transiently on the first attempt and
succeeds on the second. -/
def fxPrimRetry : ℕ → SendOutcome :=
  fun k => if k = 1 then SendOutcome.err "ECONNRESET" else SendOutcome.ok "id2"

/-- A charge of 500 minor units (5 currency units) for the part_012 line-868
revision. -/
def fxDataSmall : ChargeData :=
  { reference := "R5", metadata := some fxMeta, amount := some 500 }

/-- Webhook body for `fxDataSmall`. -/
def fxBodySmall : WebhookBody := { event := "charge.success", data := some fxDataSmall }

/-- An order for reference R1 created 20 seconds before time 0 (a stale
duplicate for the 10-second window of the part_012 upsert revision). -/
def fxOldOrder : Order :=
  { userId := some "u1", customer := fxCust, items := [], totalAmount := 10,
    totalItems := 1, deliveryDate := none, deliveryTime := none, vendor := "",
    paystackReference := "R1", paymentStatus := "paid", orderStatus := "confirmed",
    createdAt := -20000 }

/-- A store already holding `fxOldOrder`. -/
def fxOldStore : Store := { orders := [fxOldOrder] }

/-! ## Helper lemmas -/

theorem countRef_append_single (s : Store) (o : Order) (ref : String) :
    countRef { orders := s.orders ++ [o] } ref =
      countRef s ref + (if o.paystackReference == ref then 1 else 0) := by
  simp [countRef, List.countP_append, List.countP_cons]

theorem findOrder_eq_none (s : Store) (ref : String) (h : countRef s ref = 0) :
    findOrder s ref = none := by
  unfold countRef at h
  unfold findOrder
  rw [List.find?_eq_none]
  intro x hx hpx
  exact absurd hpx (List.countP_eq_zero.mp h x hx)

theorem findOrder_isSome (s : Store) (ref : String) (h : 1 ≤ countRef s ref) :
    ∃ o, findOrder s ref = some o := by
  unfold countRef at h
  have hpos : 0 < s.orders.countP (fun o => o.paystackReference == ref) := by omega
  obtain ⟨a, ha, hpa⟩ := List.countP_pos_iff.mp hpos
  exact Option.isSome_iff_exists.mp (List.find?_isSome.mpr ⟨a, ha, hpa⟩)

theorem findOrder_mem_ref (s : Store) (ref : String) (o : Order)
    (h : findOrder s ref = some o) : o ∈ s.orders ∧ o.paystackReference = ref := by
  refine ⟨List.mem_of_find?_eq_some h, ?_⟩
  have := List.find?_some h
  simpa using this

theorem pc2Upsert_found (now : ℤ) (store : Store) (reference : String) (m : Metadata)
    (customer : Cust) (items : List NItem) (total qty : ℚ) (o : Order)
    (h : findOrder store reference = some o) :
    pc2Upsert now store reference m customer items total qty = (o, store) := by
  unfold pc2Upsert
  rw [h]

theorem pc2Upsert_not_found (now : ℤ) (store : Store) (reference : String) (m : Metadata)
    (customer : Cust) (items : List NItem) (total qty : ℚ)
    (h : findOrder store reference = none) :
    pc2Upsert now store reference m customer items total qty =
      (pc2NewOrder now reference m customer items total qty,
       { orders := store.orders ++ [pc2NewOrder now reference m customer items total qty] }) := by
  unfold pc2Upsert
  rw [h]

theorem pc2Materialize_store (efail : EmailMsg → Bool) (env : Env) (now : ℤ)
    (store : Store) (reference : String) (m : Metadata) (customer : Cust)
    (items : List NItem) (total qty : ℚ) (amt : Option ℚ) :
    (pc2Materialize efail env now store reference m customer items total qty amt).store =
      (pc2Upsert now store reference m customer items total qty).2 := by
  unfold pc2Materialize
  by_cases hc : (pc2Upsert now store reference m customer items total qty).1.createdAt > now - 10000
  · rw [if_pos hc]
  · rw [if_neg hc]

theorem pc2Materialize_status (efail : EmailMsg → Bool) (env : Env) (now : ℤ)
    (store : Store) (reference : String) (m : Metadata) (customer : Cust)
    (items : List NItem) (total qty : ℚ) (amt : Option ℚ) :
    (pc2Materialize efail env now store reference m customer items total qty amt).status = 200 := by
  unfold pc2Materialize
  by_cases hc : (pc2Upsert now store reference m customer items total qty).1.createdAt > now - 10000
  · rw [if_pos hc]
  · rw [if_neg hc]

theorem pc2Alert_quiet (efail : EmailMsg → Bool) (env : Env) (amt : Option ℚ) (total : ℚ)
    (hmis : pc2Mismatch amt total = false) :
    pc2Alert efail env amt total = [] := by
  unfold pc2Alert
  rw [hmis]
  simp

theorem pc2Materialize_stale (efail : EmailMsg → Bool) (env : Env) (now : ℤ)
    (store : Store) (reference : String) (m : Metadata) (customer : Cust)
    (items : List NItem) (total qty : ℚ) (amt : Option ℚ) (o : Order)
    (h : findOrder store reference = some o) (hold : o.createdAt ≤ now - 10000)
    (hmis : pc2Mismatch amt total = false) :
    pc2Materialize efail env now store reference m customer items total qty amt =
      { status := 200, message := "Order already processed", store := store,
        emails := [], cartOps := [] } := by
  unfold pc2Materialize
  rw [pc2Upsert_found now store reference m customer items total qty o h]
  rw [if_neg (by simpa using (by omega : ¬ o.createdAt > now - 10000))]
  rw [pc2Alert_quiet efail env amt total hmis]

theorem pc2Materialize_stale_msg (efail : EmailMsg → Bool) (env : Env) (now : ℤ)
    (store : Store) (reference : String) (m : Metadata) (customer : Cust)
    (items : List NItem) (total qty : ℚ) (amt : Option ℚ) (o : Order)
    (h : findOrder store reference = some o) (hold : o.createdAt ≤ now - 10000) :
    (pc2Materialize efail env now store reference m customer items total qty amt).message =
      "Order already processed" := by
  unfold pc2Materialize
  rw [pc2Upsert_found now store reference m customer items total qty o h]
  rw [if_neg (by simpa using (by omega : ¬ o.createdAt > now - 10000))]

theorem pc2Materialize_alert_mem (efail : EmailMsg → Bool) (env : Env) (now : ℤ)
    (store : Store) (reference : String) (m : Metadata) (customer : Cust)
    (items : List NItem) (total qty : ℚ) (amt : Option ℚ) (a : String)
    (hmis : pc2Mismatch amt total = true) (hadmin : env.adminEmail = some a) :
    ∃ b, (({ addr := a, kind := "mismatch-alert" } : EmailMsg), b) ∈
      (pc2Materialize efail env now store reference m customer items total qty amt).emails := by
  have halert : pc2Alert efail env amt total =
      [(({ addr := a, kind := "mismatch-alert" } : EmailMsg),
        !efail { addr := a, kind := "mismatch-alert" })] := by
    unfold pc2Alert
    rw [hmis, hadmin]
    simp
  unfold pc2Materialize
  by_cases hc : (pc2Upsert now store reference m customer items total qty).1.createdAt > now - 10000
  · rw [if_pos hc]
    refine ⟨!efail { addr := a, kind := "mismatch-alert" }, ?_⟩
    simp [halert]
  · rw [if_neg hc]
    refine ⟨!efail { addr := a, kind := "mismatch-alert" }, ?_⟩
    simp [halert]

theorem pc2Materialize_ref_exists (efail : EmailMsg → Bool) (env : Env) (now : ℤ)
    (store : Store) (reference : String) (m : Metadata) (customer : Cust)
    (items : List NItem) (total qty : ℚ) (amt : Option ℚ) :
    ∃ o ∈ (pc2Materialize efail env now store reference m customer items total
      qty amt).store.orders, o.paystackReference = reference := by
  rw [pc2Materialize_store]
  cases hf : findOrder store reference with
  | some o =>
    rw [pc2Upsert_found now store reference m customer items total qty o hf]
    obtain ⟨hmem, href⟩ := findOrder_mem_ref store reference o hf
    exact ⟨o, hmem, href⟩
  | none =>
    rw [pc2Upsert_not_found now store reference m customer items total qty hf]
    exact ⟨pc2NewOrder now reference m customer items total qty, by simp, rfl⟩

theorem pc2_run (hmac : String → List ℕ → String) (efail : EmailMsg → Bool)
    (env : Env) (now : ℤ) (store : Store) (req : RawReq) (data : ChargeData)
    (rawItems : List RawItem) (customer : Cust)
    (hsig : verifyPaystackSignature hmac env.paystackSecret req = true)
    (hev : req.body.event = "charge.success")
    (hdata : req.body.data = some data)
    (hitems : (data.metadata.getD {}).items = some rawItems)
    (hne : rawItems.isEmpty = false)
    (hcust : (data.metadata.getD {}).customer = some customer)
    (hemail : truthyS customer.email = true)
    (hnorm : (normalizeItems rawItems).1.isEmpty = false) :
    webhookPC2 hmac efail env now store req =
      pc2Materialize efail env now store data.reference (data.metadata.getD {}) customer
        (normalizeItems rawItems).1 (normalizeItems rawItems).2.1
        (normalizeItems rawItems).2.2 data.amount := by
  unfold webhookPC2
  simp [hsig, hev, hdata, hitems, hne, hcust, hemail, hnorm]

theorem normalizeItems_sums (l : List RawItem) :
    (normalizeItems l).2.1 = ((normalizeItems l).1.map (fun n => n.price * n.quantity)).sum ∧
    (normalizeItems l).2.2 = ((normalizeItems l).1.map (fun n => n.quantity)).sum := by
  induction l with
  | nil => simp [normalizeItems]
  | cons it rest ih =>
    unfold normalizeItems
    cases ht : truthyS it.drinkId <;> simp [pc2NormalizeOne, ih.1, ih.2]

/-! ## Claim theorems -/

/-- C1 counterexample: against the check-then-insert revision of
orderController.js, two concurrent deliveries of the same successful-charge
payload can both pass `findOne` before either `create` commits.  With the
unique index enforced, the first invocation answers 200 and the second dies on
the duplicate-key error with a 500 "Webhook failed" — it does not return the
existing order as a duplicate no-op — so the claim (every other invocation is
a duplicate no-op) is false at this concrete schedule. -/
theorem c1_counterexample_race :
    ((ocRace fxNoFail fxEnv { orders := [] } "R1" fxMeta "u1" 50).1.status = 200 ∧
     (ocRace fxNoFail fxEnv { orders := [] } "R1" fxMeta "u1" 50).1.message = "OK") ∧
    ((ocRace fxNoFail fxEnv { orders := [] } "R1" fxMeta "u1" 50).2.status = 500 ∧
     (ocRace fxNoFail fxEnv { orders := [] } "R1" fxMeta "u1" 50).2.message ≠ "OK") ∧
    (ocRace fxNoFail fxEnv { orders := [] } "R1" fxMeta "u1"
        50).2.store.orders.countP (fun o => o.paystackReference == "R1") = 1 := by
  decide

/-- C1 (amended): for the part_012 atomic-upsert revision, with a validly
signed successful-charge request, (a) starting from a store with no order for
the payment reference, any number of repeated invocations leaves exactly one
order with that reference; (b) an invocation that finds the reference present
never modifies the store; (c) an invocation finding an existing order more
than 10 seconds old reports the duplicate no-op "Order already processed" and
leaves the store untouched.  (Each invocation's store access is the single
atomic `findOneAndUpdate`, so a concurrent schedule is some sequential order
of these steps.) -/
theorem c1_upsert_idempotent
    (hmac : String → List ℕ → String) (efail : EmailMsg → Bool) (env : Env)
    (now : ℤ) (req : RawReq) (data : ChargeData) (rawItems : List RawItem) (customer : Cust)
    (hsig : verifyPaystackSignature hmac env.paystackSecret req = true)
    (hev : req.body.event = "charge.success")
    (hdata : req.body.data = some data)
    (hitems : (data.metadata.getD {}).items = some rawItems)
    (hne : rawItems.isEmpty = false)
    (hcust : (data.metadata.getD {}).customer = some customer)
    (hemail : truthyS customer.email = true)
    (hnorm : (normalizeItems rawItems).1.isEmpty = false) :
    (∀ (store : Store) (n : ℕ), countRef store data.reference = 0 →
        countRef ((fun s => (webhookPC2 hmac efail env now s req).store)^[n + 1] store)
          data.reference = 1) ∧
    (∀ store : Store, 1 ≤ countRef store data.reference →
        (webhookPC2 hmac efail env now store req).store = store) ∧
    (∀ (store : Store) (o : Order), findOrder store data.reference = some o →
        o.createdAt ≤ now - 10000 →
        (webhookPC2 hmac efail env now store req).message = "Order already processed" ∧
        (webhookPC2 hmac efail env now store req).store = store) := by
  have hrun : ∀ store, webhookPC2 hmac efail env now store req =
      pc2Materialize efail env now store data.reference (data.metadata.getD {}) customer
        (normalizeItems rawItems).1 (normalizeItems rawItems).2.1
        (normalizeItems rawItems).2.2 data.amount :=
    fun store => pc2_run hmac efail env now store req data rawItems customer
      hsig hev hdata hitems hne hcust hemail hnorm
  have hkeep : ∀ store : Store, 1 ≤ countRef store data.reference →
      (webhookPC2 hmac efail env now store req).store = store := by
    intro store hge
    obtain ⟨o, ho⟩ := findOrder_isSome store data.reference hge
    rw [hrun store, pc2Materialize_store, pc2Upsert_found _ _ _ _ _ _ _ _ o ho]
  refine ⟨?_, hkeep, ?_⟩
  · intro store n h0
    have hcreate : countRef (webhookPC2 hmac efail env now store req).store data.reference = 1 := by
      have hnone := findOrder_eq_none store data.reference h0
      rw [hrun store, pc2Materialize_store, pc2Upsert_not_found _ _ _ _ _ _ _ _ hnone]
      rw [countRef_append_single]
      simp [pc2NewOrder, h0]
    induction n with
    | zero => simpa using hcreate
    | succ k ih =>
      rw [Function.iterate_succ_apply']
      have h1 := ih
      rw [hkeep _ (by omega)]
      exact h1
  · intro store o ho hold
    refine ⟨?_, ?_⟩
    · rw [hrun store]
      exact pc2Materialize_stale_msg _ _ _ _ _ _ _ _ _ _ _ o ho hold
    · rw [hrun store, pc2Materialize_store, pc2Upsert_found _ _ _ _ _ _ _ _ o ho]

/-- C1 witness: the amended theorem applied to the concrete signed request
`fxReq` — one delivery into an empty store leaves exactly one order with
reference R1. -/
theorem c1_witness :
    countRef ((fun s => (webhookPC2 fxHmac fxNoFail fxEnv 0 s fxReq).store)^[1]
      { orders := [] }) "R1" = 1 := by
  have h := c1_upsert_idempotent fxHmac fxNoFail fxEnv 0 fxReq fxData [fxItem] fxCust
    (by decide) rfl rfl rfl rfl rfl rfl (by decide)
  exact h.1 { orders := [] } 0 rfl

/-- C2 counterexample: in the part_010 webhook, an item that quotes price 999
for the 500ml pack of product "d1" is persisted with the client-quoted price
999, although the product is found in the catalog and its resolved pack price
is 10 — so "the persisted line price equals the catalog-resolved price, the
client price is kept only when the product cannot be found" is false here. -/
theorem c2_counterexample_client_price :
    (resolveItemP10 fxCatalog fxQuotedItem).price = some 999 ∧
    (findDrink fxCatalog fxQuotedItem.drinkId).isSome = true ∧
    p10FallbackPrice fxCatalog fxQuotedItem = 10 ∧
    (999 : ℚ) ≠ 10 := by
  decide

/-- C2 (amended): in the part_010 webhook the client-supplied price wins
whenever present: (a) an item whose price is a truthy number is persisted
verbatim, catalog untouched; (b) only an item with no numeric price gets the
catalog-resolved pack/product price; and (c) the part_012 `normalizeItems`
always stores the client price (`Number(item.price || 0)`), never a catalog
price. -/
theorem c2_client_price_wins :
    (∀ (catalog : List Drink) (it : RawItem) (p : ℚ), it.price = some p → p ≠ 0 →
      resolveItemP10 catalog it = it) ∧
    (∀ (catalog : List Drink) (it : RawItem), it.price = none →
      (resolveItemP10 catalog it).price = some (p10FallbackPrice catalog it)) ∧
    (∀ it : RawItem, (pc2NormalizeOne it).price = orElseQ it.price 0) := by
  refine ⟨?_, ?_, ?_⟩
  · intro catalog it p hp hp0
    unfold resolveItemP10
    rw [if_neg]
    simp [hp, hp0]
  · intro catalog it hp
    unfold resolveItemP10
    rw [if_pos (Or.inl hp)]
    simp [hp]
  · intro it
    rfl

/-- C2 witness: the amended theorem at concrete inputs — the quoted item is
persisted verbatim, and an item without a price receives the catalog price
10. -/
theorem c2_witness :
    resolveItemP10 fxCatalog fxQuotedItem = fxQuotedItem ∧
    (resolveItemP10 fxCatalog
      { drinkId := some "d1", pack := some "500ml", quantity := some 1 }).price =
      some (p10FallbackPrice fxCatalog
        { drinkId := some "d1", pack := some "500ml", quantity := some 1 }) := by
  constructor
  · exact c2_client_price_wins.1 fxCatalog fxQuotedItem 999 rfl (by decide)
  · exact c2_client_price_wins.2.1 fxCatalog _ rfl

/-- C3 counterexample: the orderController.js webhook stores
`totalAmount = amount / 100` from the gateway (50 for a 5000-pesewa charge)
while persisting the items verbatim; for the concrete charge `fxBody` the
persisted total is 50 but the sum of unit price times quantity over the
persisted items is 10. -/
theorem c3_counterexample_total :
    ((ocWebhook fxNoFail fxEnv { orders := [] } fxBody).store.orders.map
      (fun o => (o.totalAmount,
        (o.items.map (fun i => (i.price.getD 0) * (i.quantity.getD 0))).sum))) =
      [(50, 10)] ∧
    (50 : ℚ) ≠ 10 := by
  constructor
  · simp +decide [ocWebhook, ocAfterFind, ocFindOne, ocCreate, ocBuildOrder, ocMapItem,
      adminAttempt, fxBody, fxData, fxMeta, fxItem, fxCust, fxEnv, fxNoFail,
      orElseS, orElseQ, keepTruthy, truthyS]
    norm_num
  · norm_num

/-- C3 (amended): in the part_012 paymentController revision, every order the
webhook invocation adds to the store satisfies
`totalAmount = Σ price * quantity` and `totalItems = Σ quantity` over its
persisted items. -/
theorem c3_totals_pc2
    (hmac : String → List ℕ → String) (efail : EmailMsg → Bool) (env : Env)
    (now : ℤ) (store : Store) (req : RawReq) (data : ChargeData)
    (rawItems : List RawItem) (customer : Cust)
    (hsig : verifyPaystackSignature hmac env.paystackSecret req = true)
    (hev : req.body.event = "charge.success")
    (hdata : req.body.data = some data)
    (hitems : (data.metadata.getD {}).items = some rawItems)
    (hne : rawItems.isEmpty = false)
    (hcust : (data.metadata.getD {}).customer = some customer)
    (hemail : truthyS customer.email = true)
    (hnorm : (normalizeItems rawItems).1.isEmpty = false) :
    ∀ o ∈ (webhookPC2 hmac efail env now store req).store.orders, o ∉ store.orders →
      o.totalAmount = (o.items.map (fun n => n.price * n.quantity)).sum ∧
      o.totalItems = (o.items.map (fun n => n.quantity)).sum := by
  intro o hmem hnot
  rw [pc2_run hmac efail env now store req data rawItems customer
    hsig hev hdata hitems hne hcust hemail hnorm, pc2Materialize_store] at hmem
  cases hf : findOrder store data.reference with
  | some o2 =>
    rw [pc2Upsert_found _ _ _ _ _ _ _ _ o2 hf] at hmem
    exact absurd hmem hnot
  | none =>
    rw [pc2Upsert_not_found _ _ _ _ _ _ _ _ hf] at hmem
    simp only [List.mem_append, List.mem_singleton] at hmem
    rcases hmem with hmem | hmem
    · exact absurd hmem hnot
    · subst hmem
      exact ⟨(normalizeItems_sums rawItems).1, (normalizeItems_sums rawItems).2⟩

/-- C3 witness: the amended theorem at the concrete signed request `fxReq`:
the order it persists into the empty store has total 10 = 10 * 1 and item
count 1. -/
theorem c3_witness :
    (pc2NewOrder 0 "R1" fxMeta fxCust (normalizeItems [fxItem]).1
        (normalizeItems [fxItem]).2.1 (normalizeItems [fxItem]).2.2).totalAmount =
      ((pc2NewOrder 0 "R1" fxMeta fxCust (normalizeItems [fxItem]).1
        (normalizeItems [fxItem]).2.1 (normalizeItems [fxItem]).2.2).items.map
          (fun n => n.price * n.quantity)).sum := by
  have h := c3_totals_pc2 fxHmac fxNoFail fxEnv 0 { orders := [] } fxReq fxData [fxItem]
    fxCust (by decide) rfl rfl rfl rfl rfl rfl (by decide)
  have hmem : pc2NewOrder 0 "R1" fxMeta fxCust (normalizeItems [fxItem]).1
      (normalizeItems [fxItem]).2.1 (normalizeItems [fxItem]).2.2 ∈
      (webhookPC2 fxHmac fxNoFail fxEnv 0 { orders := [] } fxReq).store.orders := by
    norm_num +decide [webhookPC2, verifyPaystackSignature, pc2Materialize, pc2Upsert,
      pc2NewOrder, pc2Alert, pc2Mismatch, custAttempt, adminAttempt, findOrder,
      normalizeItems, pc2NormalizeOne, jsAbs, jsRound, orElseS, orElseQ, keepTruthy,
      truthyS, fxHmac, fxNoFail, fxEnv, fxReq, fxBody, fxData, fxMeta, fxItem, fxCust]
  exact (h _ hmem (by decide)).1

/-- C4: the claim is right and the src/src code is wrong.  The live webhook of
src/src/controllers/paymentController.js performs no signature verification at
all (its route file even claims "signature verified in controller"), so a
request whose body was tampered with is processed and materializes an order
with a 200 acknowledgment; the part_012 paymentController revision, by
contrast, rejects a body whose recomputed HMAC no longer matches the header
with a 401 and an untouched store. -/
theorem c4_signature_gap :
    (pmWebhook fxNoFail fxEnv { orders := [], users := [] } fxBodyPM).status = 200 ∧
    ((pmWebhook fxNoFail fxEnv { orders := [], users := [] } fxBodyPM).store.orders.map
      (fun o => o.paystackReference)) = ["R3"] ∧
    verifyPaystackSignature fxHmac fxEnv.paystackSecret fxTamperedReq = false ∧
    (webhookPC2 fxHmac fxNoFail fxEnv 0 { orders := [] } fxTamperedReq).status = 401 ∧
    (webhookPC2 fxHmac fxNoFail fxEnv 0 { orders := [] } fxTamperedReq).store =
      { orders := [] } ∧
    (webhookPC2 fxHmac fxNoFail fxEnv 0 { orders := [] } fxTamperedReq).emails = [] := by
  decide

/-- C5: when the charged amount differs from the computed total by more than
the 100-pesewa tolerance and an admin address is configured, the part_012
webhook still answers 200, an order for the reference exists afterwards
(created now or already present), and a mismatch-alert email to the admin is
among the attempted sends — the mismatch never fails the request or skips the
order. -/
theorem c5_mismatch_alert
    (hmac : String → List ℕ → String) (efail : EmailMsg → Bool) (env : Env)
    (now : ℤ) (store : Store) (req : RawReq) (data : ChargeData)
    (rawItems : List RawItem) (customer : Cust) (a : String)
    (hsig : verifyPaystackSignature hmac env.paystackSecret req = true)
    (hev : req.body.event = "charge.success")
    (hdata : req.body.data = some data)
    (hitems : (data.metadata.getD {}).items = some rawItems)
    (hne : rawItems.isEmpty = false)
    (hcust : (data.metadata.getD {}).customer = some customer)
    (hemail : truthyS customer.email = true)
    (hnorm : (normalizeItems rawItems).1.isEmpty = false)
    (hmis : pc2Mismatch data.amount (normalizeItems rawItems).2.1 = true)
    (hadmin : env.adminEmail = some a) :
    (webhookPC2 hmac efail env now store req).status = 200 ∧
    (∃ b, (({ addr := a, kind := "mismatch-alert" } : EmailMsg), b) ∈
      (webhookPC2 hmac efail env now store req).emails) ∧
    (∃ o ∈ (webhookPC2 hmac efail env now store req).store.orders,
      o.paystackReference = data.reference) := by
  rw [pc2_run hmac efail env now store req data rawItems customer
    hsig hev hdata hitems hne hcust hemail hnorm]
  exact ⟨pc2Materialize_status _ _ _ _ _ _ _ _ _ _ _,
    pc2Materialize_alert_mem _ _ _ _ _ _ _ _ _ _ _ a hmis hadmin,
    pc2Materialize_ref_exists _ _ _ _ _ _ _ _ _ _ _⟩

/-- C5 witness: the theorem at the concrete request `fxReq` (charged 5000,
computed total 10 i.e. 1000 pesewas, difference 4000 over the tolerance):
the webhook still acknowledges with 200. -/
theorem c5_witness :
    (webhookPC2 fxHmac fxNoFail fxEnv 0 { orders := [] } fxReq).status = 200 ∧
    (({ addr := "admin@x", kind := "mismatch-alert" } : EmailMsg), true) ∈
      (webhookPC2 fxHmac fxNoFail fxEnv 0 { orders := [] } fxReq).emails := by
  have h := c5_mismatch_alert fxHmac fxNoFail fxEnv 0 { orders := [] } fxReq fxData
    [fxItem] fxCust "admin@x" (by decide) rfl rfl rfl rfl rfl rfl (by decide)
    (by norm_num +decide [pc2Mismatch, jsAbs, jsRound, normalizeItems, pc2NormalizeOne,
      orElseQ, orElseS, truthyS, fxItem, fxData]) rfl
  refine ⟨h.1, ?_⟩
  norm_num +decide [webhookPC2, verifyPaystackSignature, pc2Materialize, pc2Upsert,
    pc2NewOrder, pc2Alert, pc2Mismatch, custAttempt, adminAttempt, findOrder,
    normalizeItems, pc2NormalizeOne, jsAbs, jsRound, orElseS, orElseQ, keepTruthy,
    truthyS, fxHmac, fxNoFail, fxEnv, fxReq, fxBody, fxData, fxMeta, fxItem, fxCust]

/-- C6 counterexample: a duplicate delivery to the orderController.js webhook
(the store already holds the order for R1) sends no notification, but it does
clear the user's cart — `Cart.deleteMany({userId})` sits outside the creation
branch — refuting "the user's cart is not cleared" on a duplicate. -/
theorem c6_counterexample_cart_cleared :
    (ocWebhook fxNoFail fxEnv fxOCStore fxBody).emails = [] ∧
    (ocWebhook fxNoFail fxEnv fxOCStore fxBody).cartOps = [some "u1"] ∧
    (ocWebhook fxNoFail fxEnv fxOCStore fxBody).store = fxOCStore := by
  decide

/-- C6 (amended): on a duplicate delivery, no customer or admin notification
is attempted in either cited revision, but the cart side effect differs:
(a) the orderController.js revision still clears the cart of the metadata
user on every processed charge, duplicates included; (b) the part_012 upsert
revision skips both notifications and the cart clearing — provided the
existing order is at least 10 seconds old (and no amount-mismatch alert
fires). -/
theorem c6_duplicate_side_effects :
    (∀ (efail : EmailMsg → Bool) (env : Env) (store : OCStore) (body : WebhookBody)
        (data : ChargeData) (m : Metadata) (o : OCOrder),
      body.event = "charge.success" → body.data = some data →
      data.metadata = some m → m.cart ≠ none → truthyS m.userId = true →
      ocFindOne store data.reference = some o →
      (ocWebhook efail env store body).emails = [] ∧
      (ocWebhook efail env store body).cartOps = [some (m.userId.getD "")] ∧
      (ocWebhook efail env store body).store = store) ∧
    (∀ (hmac : String → List ℕ → String) (efail : EmailMsg → Bool) (env : Env)
        (now : ℤ) (store : Store) (req : RawReq) (data : ChargeData)
        (rawItems : List RawItem) (customer : Cust) (o : Order),
      verifyPaystackSignature hmac env.paystackSecret req = true →
      req.body.event = "charge.success" → req.body.data = some data →
      (data.metadata.getD {}).items = some rawItems → rawItems.isEmpty = false →
      (data.metadata.getD {}).customer = some customer → truthyS customer.email = true →
      (normalizeItems rawItems).1.isEmpty = false →
      findOrder store data.reference = some o → o.createdAt ≤ now - 10000 →
      pc2Mismatch data.amount (normalizeItems rawItems).2.1 = false →
      (webhookPC2 hmac efail env now store req).emails = [] ∧
      (webhookPC2 hmac efail env now store req).cartOps = [] ∧
      (webhookPC2 hmac efail env now store req).store = store) := by
  constructor
  · intro efail env store body data m o hev hdata hmeta hcart huid hfound
    unfold ocWebhook
    simp only [hev, hdata, hmeta, bne_self_eq_false, Bool.false_eq_true, if_false]
    rw [if_neg (by simp [hcart, huid])]
    rw [hfound]
    unfold ocAfterFind
    exact ⟨rfl, rfl, rfl⟩
  · intro hmac efail env now store req data rawItems customer o
      hsig hev hdata hitems hne hcust hemail hnorm hfound hold hmis
    rw [pc2_run hmac efail env now store req data rawItems customer
      hsig hev hdata hitems hne hcust hemail hnorm]
    rw [pc2Materialize_stale _ _ _ _ _ _ _ _ _ _ _ o hfound hold hmis]
    exact ⟨rfl, rfl, rfl⟩

/-- C6 witness: the amended theorem at concrete duplicates — the
orderController.js revision with the R1 order already stored (no emails, cart
cleared for u1), and the part_012 revision 20 seconds after `fxOldOrder` was
created with a matching charged amount (no emails, no cart op, store
untouched). -/
theorem c6_witness :
    ((ocWebhook fxNoFail fxEnv fxOCStore fxBody).emails = [] ∧
     (ocWebhook fxNoFail fxEnv fxOCStore fxBody).cartOps = [some "u1"]) ∧
    ((webhookPC2 fxHmac fxNoFail fxEnv 0 fxOldStore fxReqOk).emails = [] ∧
     (webhookPC2 fxHmac fxNoFail fxEnv 0 fxOldStore fxReqOk).cartOps = [] ∧
     (webhookPC2 fxHmac fxNoFail fxEnv 0 fxOldStore fxReqOk).store = fxOldStore) := by
  have h1 := c6_duplicate_side_effects.1 fxNoFail fxEnv fxOCStore fxBody fxData fxMeta
    fxOCOrder rfl rfl rfl (by decide) (by decide) (by decide)
  have h2 := c6_duplicate_side_effects.2 fxHmac fxNoFail fxEnv 0 fxOldStore fxReqOk
    fxDataOk [fxItem] fxCust fxOldOrder (by decide) rfl rfl rfl rfl rfl (by decide)
    (by decide) (by decide) (by decide)
    (by norm_num +decide [pc2Mismatch, jsAbs, jsRound, normalizeItems, pc2NormalizeOne,
      orElseQ, orElseS, truthyS, fxItem, fxDataOk])
  exact ⟨⟨h1.1, h1.2.1⟩, h2⟩

/-- C7 counterexample: the orderController.js webhook rejects a
successful-charge payload whose metadata has no owning-user identifier with a
400 "Missing metadata" and creates no order, refuting "a guest payload still
produces a valid Order". -/
theorem c7_counterexample_guest_rejected :
    (ocWebhook fxNoFail fxEnv { orders := [] } fxBodyGuest).status = 400 ∧
    (ocWebhook fxNoFail fxEnv { orders := [] } fxBodyGuest).message = "Missing metadata" ∧
    (ocWebhook fxNoFail fxEnv { orders := [] } fxBodyGuest).store.orders = [] := by
  decide

/-- C7 (amended): the part_012 paymentController revision tolerates a guest
payload: with no `userId` in the metadata, a validly signed successful charge
still materializes the order, persisted with a null user reference. -/
theorem c7_guest_tolerated_pc2
    (hmac : String → List ℕ → String) (efail : EmailMsg → Bool) (env : Env)
    (now : ℤ) (store : Store) (req : RawReq) (data : ChargeData)
    (rawItems : List RawItem) (customer : Cust)
    (hsig : verifyPaystackSignature hmac env.paystackSecret req = true)
    (hev : req.body.event = "charge.success")
    (hdata : req.body.data = some data)
    (hitems : (data.metadata.getD {}).items = some rawItems)
    (hne : rawItems.isEmpty = false)
    (hcust : (data.metadata.getD {}).customer = some customer)
    (hemail : truthyS customer.email = true)
    (hnorm : (normalizeItems rawItems).1.isEmpty = false)
    (huid : (data.metadata.getD {}).userId = none)
    (hfree : findOrder store data.reference = none) :
    (webhookPC2 hmac efail env now store req).status = 200 ∧
    (webhookPC2 hmac efail env now store req).store.orders =
      store.orders ++ [pc2NewOrder now data.reference (data.metadata.getD {}) customer
        (normalizeItems rawItems).1 (normalizeItems rawItems).2.1
        (normalizeItems rawItems).2.2] ∧
    (pc2NewOrder now data.reference (data.metadata.getD {}) customer
      (normalizeItems rawItems).1 (normalizeItems rawItems).2.1
      (normalizeItems rawItems).2.2).userId = none := by
  rw [pc2_run hmac efail env now store req data rawItems customer
    hsig hev hdata hitems hne hcust hemail hnorm]
  refine ⟨pc2Materialize_status _ _ _ _ _ _ _ _ _ _ _, ?_, ?_⟩
  · rw [pc2Materialize_store, pc2Upsert_not_found _ _ _ _ _ _ _ _ hfree]
  · simp [pc2NewOrder, keepTruthy, huid, truthyS]

/-- C7 witness: the amended theorem at the concrete guest request
`fxReqGuest` — the webhook answers 200 and the persisted order carries a null
user reference. -/
theorem c7_witness :
    (webhookPC2 fxHmac fxNoFail fxEnv 0 { orders := [] } fxReqGuest).status = 200 ∧
    (pc2NewOrder 0 "R2" fxMetaGuest fxCust (normalizeItems [fxItem]).1
      (normalizeItems [fxItem]).2.1 (normalizeItems [fxItem]).2.2).userId = none := by
  have h := c7_guest_tolerated_pc2 fxHmac fxNoFail fxEnv 0 { orders := [] } fxReqGuest
    fxDataGuest [fxItem] fxCust (by decide) rfl rfl rfl rfl rfl (by decide) (by decide)
    rfl rfl
  exact ⟨h.1, h.2.2⟩

theorem primaryGo_spec (primary : ℕ → SendOutcome) (retries : ℕ) :
    ∀ (fuel i : ℕ), i + fuel = retries + 2 → i ≤ retries + 1 →
      (i ≤ (primaryGo primary retries i fuel).2.1 ∧
        (primaryGo primary retries i fuel).2.1 ≤ retries + 1) ∧
      (∀ k, i ≤ k → k < (primaryGo primary retries i fuel).2.1 →
        ∃ c, primary k = SendOutcome.err c ∧ c ∈ transientCodes) ∧
      ((primaryGo primary retries i fuel).2.2 =
        (List.range ((primaryGo primary retries i fuel).2.1 - i)).map
          (fun j => (800 : ℚ) * ((i + j : ℕ) : ℚ))) := by
  intro fuel
  induction fuel with
  | zero => intro i h1 h2; omega
  | succ f ih =>
    intro i h1 h2
    cases hp : primary i with
    | ok id =>
      have hres : primaryGo primary retries i (f + 1) = (some id, i, []) := by
        simp [primaryGo, hp]
      rw [hres]
      dsimp only
      exact ⟨⟨le_refl i, h2⟩, fun k hk1 hk2 => absurd hk2 (by omega), by simp⟩
    | err c =>
      by_cases htr : c ∈ transientCodes
      · by_cases hi : i ≤ retries
        · have hres : primaryGo primary retries i (f + 1) =
              ((primaryGo primary retries (i + 1) f).1,
               (primaryGo primary retries (i + 1) f).2.1,
               (800 : ℚ) * i :: (primaryGo primary retries (i + 1) f).2.2) := by
            simp [primaryGo, hp, htr, hi]
          have ihh := ih (i + 1) (by omega) (by omega)
          rw [hres]
          dsimp only
          refine ⟨⟨by have := ihh.1.1; omega, ihh.1.2⟩, ?_, ?_⟩
          · intro k hk1 hk2
            rcases eq_or_lt_of_le hk1 with heq | hlt
            · exact heq ▸ ⟨c, hp, htr⟩
            · exact ihh.2.1 k (by omega) hk2
          · rw [ihh.2.2]
            have hge : i + 1 ≤ (primaryGo primary retries (i + 1) f).2.1 := ihh.1.1
            have hsub : (primaryGo primary retries (i + 1) f).2.1 - i =
                ((primaryGo primary retries (i + 1) f).2.1 - (i + 1)) + 1 := by omega
            rw [hsub, List.range_succ_eq_map, List.map_cons, List.map_map]
            refine congrArg₂ _ (by norm_num) ?_
            apply List.map_congr_left
            intro j hj
            have hjj : i + 1 + j = i + (j + 1) := by omega
            simp [Function.comp, hjj]
        · have hres : primaryGo primary retries i (f + 1) = (none, i, []) := by
            simp [primaryGo, hp, htr, hi]
          rw [hres]
          dsimp only
          exact ⟨⟨le_refl i, h2⟩, fun k hk1 hk2 => absurd hk2 (by omega), by simp⟩
      · have hres : primaryGo primary retries i (f + 1) = (none, i, []) := by
          simp [primaryGo, hp, htr]
        rw [hres]
        dsimp only
        exact ⟨⟨le_refl i, h2⟩, fun k hk1 hk2 => absurd hk2 (by omega), by simp⟩

/-- C9: the part_004 delivery policy.  With the fallback flag set (as
`sendEmail` calls it): the primary transport is attempted at least once and
at most `retries + 1` times; every attempt that was followed by another
failed with a transient error code (so a non-transient failure stops the
retrying at once); the backoff delays slept between attempts are exactly
`800ms, 1600ms, ...` (increasing); the fallback transport is attempted
exactly when one is configured and the whole primary phase failed; a send is
reported failed with a configured fallback only after that single fallback
attempt; and a primary success is returned as-is with no fallback use. -/
theorem c9_retry_fallback_policy (primary : ℕ → SendOutcome)
    (fallbackPlan : Option SendOutcome) (retries : ℕ) (t : SendTrace)
    (ht : t = trySendMail primary fallbackPlan retries true) :
    (1 ≤ t.primaryAttempts ∧ t.primaryAttempts ≤ retries + 1) ∧
    (∀ k, 1 ≤ k → k < t.primaryAttempts →
      ∃ c, primary k = SendOutcome.err c ∧ c ∈ transientCodes) ∧
    (t.delays = (List.range (t.primaryAttempts - 1)).map
      (fun j => (800 : ℚ) * ((1 + j : ℕ) : ℚ))) ∧
    (t.usedFallback = true ↔
      (fallbackPlan ≠ none ∧ (primaryPhase primary retries).1 = none)) ∧
    (t.result = none → fallbackPlan ≠ none → t.usedFallback = true) ∧
    (∀ id, (primaryPhase primary retries).1 = some id →
      t.result = some id ∧ t.usedFallback = false) := by
  have hspec : (1 ≤ (primaryPhase primary retries).2.1 ∧
      (primaryPhase primary retries).2.1 ≤ retries + 1) ∧
      (∀ k, 1 ≤ k → k < (primaryPhase primary retries).2.1 →
        ∃ c, primary k = SendOutcome.err c ∧ c ∈ transientCodes) ∧
      ((primaryPhase primary retries).2.2 =
        (List.range ((primaryPhase primary retries).2.1 - 1)).map
          (fun j => (800 : ℚ) * ((1 + j : ℕ) : ℚ))) :=
    primaryGo_spec primary retries (retries + 1) 1 (by omega) (by omega)
  subst ht
  rcases hr : primaryPhase primary retries with ⟨res, att, ds⟩
  rw [hr] at hspec
  dsimp only at hspec
  dsimp only
  cases res with
  | some id =>
    have htm : trySendMail primary fallbackPlan retries true =
        { result := some id, primaryAttempts := att, delays := ds, usedFallback := false } := by
      simp [trySendMail, hr]
    rw [htm]
    dsimp only
    refine ⟨⟨hspec.1.1, hspec.1.2⟩, hspec.2.1, hspec.2.2, by simp, by simp, ?_⟩
    intro id2 hid2
    exact ⟨by simpa using hid2, rfl⟩
  | none =>
    cases hfb : fallbackPlan with
    | none =>
      have htm : trySendMail primary none retries true =
          { result := none, primaryAttempts := att, delays := ds, usedFallback := false } := by
        simp [trySendMail, hr]
      rw [htm]
      dsimp only
      refine ⟨⟨hspec.1.1, hspec.1.2⟩, hspec.2.1, hspec.2.2, by simp, ?_, ?_⟩
      · intro _ hcontra
        exact absurd rfl hcontra
      · intro id2 hid2
        exact absurd hid2 (by simp)
    | some fb =>
      cases fb with
      | ok id =>
        have htm : trySendMail primary (some (SendOutcome.ok id)) retries true =
            { result := some id, primaryAttempts := att, delays := ds, usedFallback := true } := by
          simp [trySendMail, hr]
        rw [htm]
        dsimp only
        refine ⟨⟨hspec.1.1, hspec.1.2⟩, hspec.2.1, hspec.2.2, by simp, ?_, ?_⟩
        · intro hcontra _
          simp at hcontra
        · intro id2 hid2
          exact absurd hid2 (by simp)
      | err c =>
        have htm : trySendMail primary (some (SendOutcome.err c)) retries true =
            { result := none, primaryAttempts := att, delays := ds, usedFallback := true } := by
          simp [trySendMail, hr]
        rw [htm]
        dsimp only
        refine ⟨⟨hspec.1.1, hspec.1.2⟩, hspec.2.1, hspec.2.2, by simp, ?_, ?_⟩
        · intro _ _
          rfl
        · intro id2 hid2
          exact absurd hid2 (by simp)

/-- C9 witness: the theorem at a concrete transport that fails with
ECONNRESET on the first attempt and succeeds on the second, with `retries = 1`
and a configured fallback: two primary attempts, the non-final attempt was
transient, one 800ms delay, and the fallback is untouched. -/
theorem c9_witness :
    (trySendMail fxPrimRetry (some (SendOutcome.ok "fb")) 1 true).primaryAttempts ≤ 2 ∧
    (∃ c, fxPrimRetry 1 = SendOutcome.err c ∧ c ∈ transientCodes) ∧
    (trySendMail fxPrimRetry (some (SendOutcome.ok "fb")) 1 true).usedFallback = false := by
  have h := c9_retry_fallback_policy fxPrimRetry (some (SendOutcome.ok "fb")) 1
    (trySendMail fxPrimRetry (some (SendOutcome.ok "fb")) 1 true) rfl
  refine ⟨h.1.2, h.2.1 1 (by omega) (by decide), ?_⟩
  exact (h.2.2.2.2.2 "id2" (by decide)).2

theorem pc1_creates (efail : EmailMsg → Bool) (env : Env) (now : ℤ) (store : Store)
    (body : WebhookBody) (data : ChargeData)
    (hev : body.event = "charge.success")
    (hdata : body.data = some data)
    (hne : (pc1ItemsRaw (data.metadata.getD {})).isEmpty = false)
    (hfree : findOrder store data.reference = none) :
    (pc1Webhook efail env now store body).store.orders =
      store.orders ++ [pc1BuiltOrder now data (data.metadata.getD {})] := by
  unfold pc1Webhook
  simp [hev, hdata, hne, hfree]

/-- C10: the heuristic total of the part_012 line-868 webhook.  For a
successful charge with a numeric amount `a`, the order persisted for a fresh
reference carries `totalAmount = a / 100` when `a` exceeds 1000, but for
`1 ≤ a ≤ 1000` the raw minor-unit value `a` itself is stored as the
major-unit total — one hundred times the true value `a / 100`. -/
theorem c10_unscaled_small_total
    (efail : EmailMsg → Bool) (env : Env) (now : ℤ) (store : Store)
    (body : WebhookBody) (data : ChargeData) (a : ℚ)
    (hev : body.event = "charge.success")
    (hdata : body.data = some data)
    (hamt : data.amount = some a)
    (hne : (pc1ItemsRaw (data.metadata.getD {})).isEmpty = false)
    (hfree : findOrder store data.reference = none) :
    (pc1Webhook efail env now store body).store.orders =
      store.orders ++ [pc1BuiltOrder now data (data.metadata.getD {})] ∧
    (1 ≤ a → a ≤ 1000 →
      (pc1BuiltOrder now data (data.metadata.getD {})).totalAmount = a ∧
      (pc1BuiltOrder now data (data.metadata.getD {})).totalAmount = 100 * (a / 100) ∧
      (pc1BuiltOrder now data (data.metadata.getD {})).totalAmount ≠ a / 100) ∧
    (1000 < a →
      (pc1BuiltOrder now data (data.metadata.getD {})).totalAmount = a / 100) := by
  have hproj : (pc1BuiltOrder now data (data.metadata.getD {})).totalAmount =
      pc1TotalAmount data.amount
        (pc1Normalize (pc1ItemsRaw (data.metadata.getD {}))).2.1 := rfl
  refine ⟨pc1_creates efail env now store body data hev hdata hne hfree, ?_, ?_⟩
  · intro h1 h2
    have htot : (pc1BuiltOrder now data (data.metadata.getD {})).totalAmount = a := by
      rw [hproj, hamt]
      simp only [pc1TotalAmount]
      rw [if_pos (by linarith), if_neg (by linarith)]
    refine ⟨htot, by rw [htot]; ring, ?_⟩
    rw [htot]
    intro heq
    rw [eq_div_iff (by norm_num : (100 : ℚ) ≠ 0)] at heq
    linarith
  · intro h3
    rw [hproj, hamt]
    simp only [pc1TotalAmount]
    rw [if_pos (by linarith), if_pos h3]

/-- C10 witness: the theorem at the concrete 500-pesewa charge `fxDataSmall`
— the persisted total is 500, which is 100 times the true value 5. -/
theorem c10_witness :
    (pc1BuiltOrder 0 fxDataSmall fxMeta).totalAmount = 500 ∧
    (pc1BuiltOrder 0 fxDataSmall fxMeta).totalAmount = 100 * ((500 : ℚ) / 100) := by
  have h := c10_unscaled_small_total fxNoFail fxEnv 0 { orders := [] } fxBodySmall
    fxDataSmall 500 rfl rfl rfl (by decide) rfl
  exact ⟨(h.2.1 (by norm_num) (by norm_num)).1, (h.2.1 (by norm_num) (by norm_num)).2.1⟩

end Duks
